import Mathlib

/-!
Verification development for the Visualization2 accident-dashboard repository.

The Python sources are shallowly embedded: pandas Series values are modelled
by `Val` (an integer, a non-integral decimal float, a string, or the missing
marker NaN), DataFrames by
lists of records, and each relevant Python function by an executable Lean
function translated line by line from its source.  Theorems at the end of the
file settle the specification claims against these definitions.
-/

set_option maxRecDepth 4000

/-- A pandas cell value: an integer, a non-integral float, a string, or the
missing marker (NaN/NA).  A non-integral float is written as a canonical
terminating decimal `vFloat num pow`, of value `num / 10 ^ pow`, with the
trailing zero digits stripped so that each value has exactly one
representation; floats with integral value are represented as `vInt`, since
every operation this repository performs on numeric cells (nullable and
plain integer casts, truncation, comparison, grouping) treats an integral
float and the equal integer alike. -/
inductive Val where
  | vInt : Int → Val
  | vFloat : Int → Nat → Val
  | vStr : String → Val
  | vNull : Val
deriving DecidableEq, Repr

/-- Numeric value of a list of ASCII digit characters. -/
def digitsVal (cs : List Char) : Nat :=
  cs.foldl (fun a c => a * 10 + (c.toNat - 48)) 0

/-- Strip leading and trailing whitespace from a character list (the
whitespace stripping Python `int` performs on its string argument). -/
def pyStrip (cs : List Char) : List Char :=
  ((cs.dropWhile Char.isWhitespace).reverse.dropWhile Char.isWhitespace).reverse

/-- Model of Python `int(s)` on a character list: surrounding whitespace is
stripped, an optional single sign is allowed, and the remainder must be one
or more decimal digits; any other shape raises `ValueError`, modelled as
`none`. -/
def pyIntCore (raw : List Char) : Option Int :=
  match pyStrip raw with
  | '-' :: ds => if ds ≠ [] ∧ ds.all Char.isDigit then some (-(digitsVal ds : Int)) else none
  | '+' :: ds => if ds ≠ [] ∧ ds.all Char.isDigit then some (digitsVal ds : Int) else none
  | ds => if ds ≠ [] ∧ ds.all Char.isDigit then some (digitsVal ds : Int) else none

/-- Model of Python `int(s)` on a string. -/
def pyInt? (s : String) : Option Int :=
  pyIntCore s.data

/-- First component of Python `s.split(sep)` for a one-character separator:
the longest prefix free of the separator. -/
def splitHead (sep : Char) (cs : List Char) : List Char :=
  cs.takeWhile (fun c => c ≠ sep)

/-- Leading hour extracted by `classify_period_hr` in
`pages/3_accident_visualizations.py`: `hr_str.split('-')[0].split(':')[0]`
fed to `int`. -/
def leadHourHr (s : String) : Option Int :=
  pyIntCore (splitHead ':' (splitHead '-' s.data))

/-- Leading hour extracted by `classify_period_severity_hr`:
`hr_str.split(':')[0]` fed to `int`. -/
def leadHourSev (s : String) : Option Int :=
  pyIntCore (splitHead ':' s.data)

/-- `classify_period_hr` from `accidents_by_user_type_chart`
(`pages/3_accident_visualizations.py`).  `none` models a NaN cell
(`pd.isna(hr_str)`); a parse failure (ValueError/IndexError) yields
"Unknown". -/
def classify_period_hr (hr_str : Option String) : String :=
  match hr_str with
  | none => "Unknown"
  | some s =>
    match leadHourHr s with
    | some start_hour => if 6 ≤ start_hour ∧ start_hour < 20 then "Day" else "Night"
    | none => "Unknown"

/-- `classify_period_severity_hr` from `accident_severity_month_chart`
(`pages/3_accident_visualizations.py`). -/
def classify_period_severity_hr (hr_str : Option String) : String :=
  match hr_str with
  | none => "Unknown"
  | some s =>
    match leadHourSev s with
    | some start_hour => if 6 ≤ start_hour ∧ start_hour < 20 then "Day" else "Night"
    | none => "Unknown"

/-- `month_to_season` from `pages/5_polar_grave_surface.py`: membership tests
`month in [1, 2, 3]` etc., with a catch-all `else: return 'Autumn'`. -/
def month_to_season (month : Int) : String :=
  if month = 1 ∨ month = 2 ∨ month = 3 then "Winter"
  else if month = 4 ∨ month = 5 ∨ month = 6 then "Spring"
  else if month = 7 ∨ month = 8 ∨ month = 9 then "Summer"
  else "Autumn"

/-! ## Field cleaning (src/dashboard.py, src/pages/dashboard.py,
src/pages/3_accident_visualizations.py, src/pages/5_polar_grave_surface.py) -/

/-- Column-name cleaning:
`df.columns.str.strip().str.replace('"', '').str.replace('\t', '')` followed
by `df.rename(columns=lambda x: x.strip())`. -/
def cleanColName (s : String) : String :=
  String.mk
    (pyStrip (((pyStrip s.data).filter (fun c => c ≠ '"')).filter (fun c => c ≠ '\t')))

/-- The `GRAVITE` replace dict of src/dashboard.py and src/pages/dashboard.py
(`Series.replace`: values that are not keys pass through unchanged). -/
def graviteReplace (s : String) : String :=
  if s = "Dommages matériels seulement" then "Matériels"
  else if s = "Dommages matériels inférieurs au seuil de rapportage" then "Mineurs"
  else if s = "Léger" then "Léger"
  else if s = "Mortel ou grave" then "Grave"
  else s

/-- The `GRAVITE` → `GRAVITE_EN` replace dict of
src/pages/3_accident_visualizations.py and src/pages/4_road_severity.py. -/
def graviteEN (s : String) : String :=
  if s = "Dommages matériels seulement" then "Material Damage"
  else if s = "Dommages matériels inférieurs au seuil de rapportage" then "Low Damage"
  else if s = "Léger" then "Minor"
  else if s = "Mortel ou grave" then "Severe"
  else s

/-- The `JR_SEMN_ACCDN` → `JR_SEMN_ACCDN_EN` replace dict. -/
def weekEN (s : String) : String :=
  if s = "SEM" then "Weekday" else if s = "FDS" then "Weekend" else s

/-- `Series.replace` with a string-keyed dict lifted to a cell: only string
cells can match a key; everything else passes through. -/
def pdReplaceGravite : Val → Val
  | .vStr s => .vStr (graviteReplace s)
  | v => v

/-- `Series.replace` with the English severity dict lifted to a cell. -/
def pdReplaceEN : Val → Val
  | .vStr s => .vStr (graviteEN s)
  | v => v

/-- `Series.replace` with the weekday/weekend dict lifted to a cell. -/
def pdReplaceWeek : Val → Val
  | .vStr s => .vStr (weekEN s)
  | v => v

/-- `weather_mapping` applied via `Series.map`: a dict lookup where any value
that is not a key — including an already-mapped label — becomes NaN. -/
def weatherMap : Val → Val
  | .vInt 11 => .vStr "Clear"
  | .vInt 12 => .vStr "Overcast"
  | .vInt 13 => .vStr "Fog/Mist"
  | .vInt 14 => .vStr "Rain/Drizzle"
  | .vInt 15 => .vStr "Heavy Rain"
  | .vInt 16 => .vStr "Strong Wind"
  | .vInt 17 => .vStr "Snow/Hail"
  | .vInt 18 => .vStr "Blowing Snow/Storm"
  | .vInt 19 => .vStr "Freezing Rain"
  | .vInt 99 => .vStr "Other"
  | _ => .vNull

/-- `surface_mapping` applied via `Series.map`. -/
def surfaceMap : Val → Val
  | .vInt 11 => .vStr "Dry"
  | .vInt 12 => .vStr "Wet"
  | .vInt 13 => .vStr "Aquaplaning"
  | .vInt 14 => .vStr "Sand/Gravel"
  | .vInt 15 => .vStr "Slush/Snow"
  | .vInt 16 => .vStr "Snow-covered"
  | .vInt 17 => .vStr "Hard-packed Snow"
  | .vInt 18 => .vStr "Icy"
  | .vInt 19 => .vStr "Muddy"
  | .vInt 20 => .vStr "Oily"
  | .vInt 99 => .vStr "Other"
  | _ => .vNull

/-- `lighting_mapping` applied via `Series.map`. -/
def lightingMap : Val → Val
  | .vInt 1 => .vStr "Daylight - Clear Visibility"
  | .vInt 2 => .vStr "Daylight - Low Visibility"
  | .vInt 3 => .vStr "Night - Road Illuminated"
  | .vInt 4 => .vStr "Night - Not Illuminated"
  | _ => .vNull

/-- `env_mapping` applied via `Series.map`. -/
def envMap : Val → Val
  | .vInt 1 => .vStr "School Zone"
  | .vInt 2 => .vStr "Residential"
  | .vInt 3 => .vStr "Business / Commercial"
  | .vInt 4 => .vStr "Industrial"
  | .vInt 5 => .vStr "Rural"
  | .vInt 6 => .vStr "Forestry"
  | .vInt 7 => .vStr "Recreational"
  | .vInt 9 => .vStr "Other"
  | .vInt 0 => .vStr "Not Specified"
  | _ => .vNull

/-- Strip trailing zero digits from a fraction-digit list, so that the
fraction is zero exactly when the result is empty. -/
def stripTrailingZeros (fp : List Char) : List Char :=
  (fp.reverse.dropWhile (fun c => c = '0')).reverse

/-- Decimal parse underlying `pd.to_numeric` on a string cell: optional
surrounding whitespace and a single sign, then digits with at most one
decimal point (this dataset uses no exponent forms, which are omitted).
Returns the sign, the integer-part value and the canonical fraction digits;
any other shape is unparseable. -/
def pyDecCore (raw : List Char) : Option (Bool × Nat × List Char) :=
  let t := pyStrip raw
  let sd : Bool × List Char :=
    match t with
    | '-' :: r => (true, r)
    | '+' :: r => (false, r)
    | r => (false, r)
  let ip := sd.2.takeWhile (fun c => c ≠ '.')
  match sd.2.dropWhile (fun c => c ≠ '.') with
  | [] =>
    if sd.2 ≠ [] ∧ sd.2.all Char.isDigit then some (sd.1, digitsVal sd.2, [])
    else none
  | _ :: fp =>
    if (ip.all Char.isDigit ∧ fp.all Char.isDigit) ∧ (ip ≠ [] ∨ fp ≠ []) then
      some (sd.1, digitsVal ip, stripTrailingZeros fp)
    else none

/-- `pd.to_numeric(x, errors='coerce')` on a cell: numbers stay, parseable
numeric strings become their exact decimal value (integral parses such as
"5" or "5.0" as integers, non-integral parses such as "3.5" as canonical
decimals), anything else becomes NaN.  The coercion itself never raises. -/
def toNumericCoerce : Val → Val
  | .vInt n => .vInt n
  | .vFloat num pow => .vFloat num pow
  | .vStr s =>
    match pyDecCore s.data with
    | none => .vNull
    | some (neg, n, []) => .vInt (if neg then -(n : Int) else (n : Int))
    | some (neg, n, fp) =>
      .vFloat
        (if neg then -((n * 10 ^ fp.length + digitsVal fp : Nat) : Int)
         else ((n * 10 ^ fp.length + digitsVal fp : Nat) : Int))
        fp.length
  | .vNull => .vNull

/-- One reduction step of `re.sub(r"\s*\(\d+\)", "", s)`: try to match
whitespace, an opening paren, at least one digit and a closing paren at the
head of the list, returning the remainder on success. -/
def matchParenNum (cs : List Char) : Option (List Char) :=
  match cs.dropWhile Char.isWhitespace with
  | '(' :: r2 =>
    match r2.takeWhile Char.isDigit, r2.dropWhile Char.isDigit with
    | [], _ => none
    | _ :: _, ')' :: r4 => some r4
    | _ :: _, _ => none
  | _ => none

/-- Fuel-indexed scan deleting every occurrence of `\s*\(\d+\)`; each step
consumes at least one character, so fuel equal to the length suffices. -/
def stripRegParenAux : Nat → List Char → List Char
  | 0, cs => cs
  | _ + 1, [] => []
  | n + 1, c :: cs =>
    match matchParenNum (c :: cs) with
    | some rest => stripRegParenAux n rest
    | none => c :: stripRegParenAux n cs

/-- `df['REG_ADM'].str.replace(r"\s*\(\d+\)", "", regex=True)` on one cell;
the `.str` accessor yields NaN on non-string cells. -/
def regClean : Val → Val
  | .vStr s => .vStr (String.mk (stripRegParenAux s.data.length s.data))
  | _ => .vNull

/-- The columns touched by the module-level cleaning of
src/pages/dashboard.py (equally `load_data` in src/dashboard.py).  The two
derived label columns do not exist in the raw frame; they are modelled as
fields that the cleaning overwrites. -/
structure DashRawRecord where
  AN : Int
  GRAVITE : Val
  CD_COND_METEO : Val
  CD_ETAT_SURFC : Val
  CD_ECLRM : Val
  CD_ENVRN_ACCDN : Val
  Lighting_Label : Val
  Environment_Label : Val
deriving DecidableEq, Repr

/-- The cleaning of src/pages/dashboard.py lines 13-34: `GRAVITE` is
replaced in place via a dict, `CD_COND_METEO` and `CD_ETAT_SURFC` are
overwritten in place with `Series.map` lookups of themselves, and the two
label columns are computed from untouched code columns. -/
def cleanDash (r : DashRawRecord) : DashRawRecord :=
  { r with
    GRAVITE := pdReplaceGravite r.GRAVITE
    CD_COND_METEO := weatherMap r.CD_COND_METEO
    CD_ETAT_SURFC := surfaceMap r.CD_ETAT_SURFC
    Lighting_Label := lightingMap r.CD_ECLRM
    Environment_Label := envMap r.CD_ENVRN_ACCDN }

/-- The columns touched by `load_and_clean_data` in
src/pages/3_accident_visualizations.py; derived columns are modelled as
fields the cleaning overwrites. -/
structure VisRecord where
  GRAVITE : Val
  GRAVITE_EN : Val
  JR_SEMN_ACCDN : Val
  JR_SEMN_ACCDN_EN : Val
  MS_ACCDN : Val
  REG_ADM : Val
  REG_ADM_CLEAN : Val
deriving DecidableEq, Repr

/-- `load_and_clean_data` of src/pages/3_accident_visualizations.py (lines
22-43): every mapped or derived column is written to a fresh column from an
untouched source, and `MS_ACCDN` is numerically coerced in place.  The
`astype("Int64")` that line 37 appends is a per-cell no-op on every cell it
accepts (integral parses are already integers here, missing stays NA); on a
non-integral float it raises instead of producing a cell — that abort path
is modelled by `int64MonthLoad`. -/
def clean3 (r : VisRecord) : VisRecord :=
  { r with
    GRAVITE_EN := pdReplaceEN r.GRAVITE
    JR_SEMN_ACCDN_EN := pdReplaceWeek r.JR_SEMN_ACCDN
    MS_ACCDN := toNumericCoerce r.MS_ACCDN
    REG_ADM_CLEAN := regClean r.REG_ADM }

/-- `pd.to_numeric(df['MS_ACCDN'], errors='coerce').astype(int)` (`load_data`
in src/pages/5_polar_grave_surface.py, line 17): the coercion is total, and
the unsafe `int` cast truncates a non-integral float toward zero (the C
cast, `Int.tdiv`) but raises on any missing value, so the whole load fails
as soon as one cell is unparseable. -/
def polarMonthLoad (xs : List Val) : Except String (List Int) :=
  let coerced := xs.map toNumericCoerce
  if coerced.all (fun v => v ≠ Val.vNull) then
    .ok (coerced.filterMap (fun v => match v with
      | .vInt n => some n
      | .vFloat num pow => some (Int.tdiv num (10 ^ pow))
      | _ => none))
  else .error "Cannot convert non-finite values (NA or inf) to integer"

/-- `pd.to_numeric(df['MS_ACCDN'], errors='coerce').astype("Int64")` (line 37
of src/pages/3_accident_visualizations.py): the safe nullable-integer cast
keeps missing cells as NA and accepts integral values, but raises TypeError
on any non-integral float, aborting the whole load through the page's
generic except / st.stop. -/
def int64MonthLoad (xs : List Val) : Except String (List Val) :=
  let coerced := xs.map toNumericCoerce
  if coerced.all (fun v => match v with | .vFloat _ _ => false | _ => true) then
    .ok coerced
  else .error "cannot safely cast non-equivalent float64 to int64"

/-- `df_clean.dropna(subset=['MS_ACCDN'])` restricted to the month column:
only the records whose month is missing are excluded. -/
def dropnaMonth (rs : List VisRecord) : List VisRecord :=
  rs.filter (fun r => r.MS_ACCDN ≠ Val.vNull)

/-! ## Helper lemmas about stripping and coercion -/

theorem dropWhile_self_idem (p : Char → Bool) (l : List Char) :
    (l.dropWhile p).dropWhile p = l.dropWhile p := by
  induction l with
  | nil => rfl
  | cons a t ih =>
    by_cases h : p a
    · simp only [List.dropWhile_cons, h, if_true]
      exact ih
    · simp [List.dropWhile_cons, h]

theorem dropWhile_head_false (p : Char → Bool) (l : List Char) (a : Char)
    (t : List Char) (h : l.dropWhile p = a :: t) : p a = false := by
  induction l with
  | nil => simp at h
  | cons b u ih =>
    by_cases hb : p b
    · exact ih (by simpa [List.dropWhile_cons, hb] using h)
    · rw [List.dropWhile_cons, if_neg (by simpa using hb)] at h
      injection h with h1 _
      subst h1
      simpa using hb

theorem pyStrip_fixed_of_dropWhile_fixed (l : List Char)
    (hl : l.dropWhile Char.isWhitespace = l) :
    (l.reverse.dropWhile Char.isWhitespace).reverse.dropWhile Char.isWhitespace
      = (l.reverse.dropWhile Char.isWhitespace).reverse := by
  rcases hw : (l.reverse.dropWhile Char.isWhitespace).reverse with _ | ⟨a, t⟩
  · rfl
  · have hsplit : l.reverse.takeWhile Char.isWhitespace ++
        l.reverse.dropWhile Char.isWhitespace = l.reverse :=
      List.takeWhile_append_dropWhile _ _
    have hl2 : l = (l.reverse.dropWhile Char.isWhitespace).reverse ++
        (l.reverse.takeWhile Char.isWhitespace).reverse := by
      conv_lhs => rw [← List.reverse_reverse l, ← hsplit]
      rw [List.reverse_append]
    rw [hw] at hl2
    have hcons : l.dropWhile Char.isWhitespace =
        a :: (t ++ (l.reverse.takeWhile Char.isWhitespace).reverse) := hl.trans hl2
    have ha := dropWhile_head_false _ _ _ _ hcons
    simp [List.dropWhile_cons, ha]

theorem pyStrip_idem (cs : List Char) : pyStrip (pyStrip cs) = pyStrip cs := by
  have h1 : (cs.dropWhile Char.isWhitespace).dropWhile Char.isWhitespace
      = cs.dropWhile Char.isWhitespace := dropWhile_self_idem _ _
  have h2 := pyStrip_fixed_of_dropWhile_fixed (cs.dropWhile Char.isWhitespace) h1
  unfold pyStrip
  rw [h2, List.reverse_reverse, dropWhile_self_idem]

theorem mem_pyStrip {a : Char} {l : List Char} (h : a ∈ pyStrip l) : a ∈ l := by
  unfold pyStrip at h
  rw [List.mem_reverse] at h
  have h2 := (List.dropWhile_sublist (l := (l.dropWhile Char.isWhitespace).reverse)
    (p := Char.isWhitespace)).mem h
  rw [List.mem_reverse] at h2
  exact (List.dropWhile_sublist _).mem h2

theorem cleanCore_idem (l : List Char) :
    pyStrip (((pyStrip (pyStrip (((pyStrip l).filter (fun c => c ≠ '"')).filter
        (fun c => c ≠ '\t')))).filter (fun c => c ≠ '"')).filter
        (fun c => c ≠ '\t'))
      = pyStrip (((pyStrip l).filter (fun c => c ≠ '"')).filter
        (fun c => c ≠ '\t')) := by
  set y := ((pyStrip l).filter (fun c => c ≠ '"')).filter (fun c => c ≠ '\t')
    with hy
  rw [pyStrip_idem]
  have hf1 : (pyStrip y).filter (fun c => c ≠ '"') = pyStrip y := by
    rw [List.filter_eq_self]
    intro a ha
    have hay : a ∈ y := mem_pyStrip ha
    rw [hy] at hay
    simp only [List.mem_filter] at hay
    exact hay.1.2
  have hf2 : (pyStrip y).filter (fun c => c ≠ '\t') = pyStrip y := by
    rw [List.filter_eq_self]
    intro a ha
    have hay : a ∈ y := mem_pyStrip ha
    rw [hy] at hay
    simp only [List.mem_filter] at hay
    exact hay.2
  rw [hf1, hf2, pyStrip_idem]

theorem cleanColName_idem (s : String) :
    cleanColName (cleanColName s) = cleanColName s :=
  congrArg String.mk (cleanCore_idem s.data)

theorem toNumericCoerce_idem (v : Val) :
    toNumericCoerce (toNumericCoerce v) = toNumericCoerce v := by
  cases v with
  | vInt n => rfl
  | vFloat num pow => rfl
  | vNull => rfl
  | vStr s =>
    rcases h : pyDecCore s.data with _ | ⟨neg, n, fp⟩
    · simp [toNumericCoerce, h]
    · cases fp with
      | nil => simp [toNumericCoerce, h]
      | cons c t => simp [toNumericCoerce, h]

/-- C2: the day/night classifiers return "Day" exactly for a leading hour in
6..19, "Night" for every other parseable leading hour, and "Unknown" for a
missing or unparseable string; the three example strings classify as stated. -/
theorem C2_day_night_classifier :
    (∀ s h, leadHourHr s = some h →
      classify_period_hr (some s) = if 6 ≤ h ∧ h ≤ 19 then "Day" else "Night") ∧
    (∀ s, leadHourHr s = none → classify_period_hr (some s) = "Unknown") ∧
    classify_period_hr none = "Unknown" ∧
    (∀ s h, leadHourSev s = some h →
      classify_period_severity_hr (some s) = if 6 ≤ h ∧ h ≤ 19 then "Day" else "Night") ∧
    (∀ s, leadHourSev s = none → classify_period_severity_hr (some s) = "Unknown") ∧
    classify_period_severity_hr none = "Unknown" ∧
    classify_period_hr (some "20:30:00-23:59:00") = "Night" ∧
    classify_period_hr (some "09:15:00-11:59:00") = "Day" ∧
    classify_period_hr (some "garbage") = "Unknown" := by
  refine ⟨?_, ?_, rfl, ?_, ?_, rfl, by decide, by decide, by decide⟩
  · intro s h hs
    simp only [classify_period_hr, hs]
    have : (6 ≤ h ∧ h < 20) ↔ (6 ≤ h ∧ h ≤ 19) := by omega
    simp only [this]
  · intro s hs
    simp only [classify_period_hr, hs]
  · intro s h hs
    simp only [classify_period_severity_hr, hs]
    have : (6 ≤ h ∧ h < 20) ↔ (6 ≤ h ∧ h ≤ 19) := by omega
    simp only [this]
  · intro s hs
    simp only [classify_period_severity_hr, hs]

/-- Witness for C2: the general clauses applied at the concrete strings
"07:10:00-09:59:00" (leading hour 7, a Day) and "garbage" (unparseable). -/
theorem C2_day_night_classifier_witness :
    classify_period_hr (some "07:10:00-09:59:00") =
      (if (6:Int) ≤ 7 ∧ (7:Int) ≤ 19 then "Day" else "Night") ∧
    classify_period_hr (some "garbage") = "Unknown" :=
  ⟨C2_day_night_classifier.1 "07:10:00-09:59:00" 7 (by decide),
   C2_day_night_classifier.2.1 "garbage" (by decide)⟩

/-- C10: `month_to_season` is total with a silent catch-all: 1-3 Winter,
4-6 Spring, 7-9 Summer, everything else (10-12 but also 0, 13, -1, any
out-of-range survivor of coercion) Autumn, never an Unknown marker. -/
theorem C10_month_to_season_catch_all :
    (∀ m : Int, 1 ≤ m ∧ m ≤ 3 → month_to_season m = "Winter") ∧
    (∀ m : Int, 4 ≤ m ∧ m ≤ 6 → month_to_season m = "Spring") ∧
    (∀ m : Int, 7 ≤ m ∧ m ≤ 9 → month_to_season m = "Summer") ∧
    (∀ m : Int, m < 1 ∨ 9 < m → month_to_season m = "Autumn") ∧
    month_to_season 0 = "Autumn" ∧ month_to_season 13 = "Autumn" ∧
    month_to_season 10 = "Autumn" := by
  refine ⟨?_, ?_, ?_, ?_, by decide, by decide, by decide⟩ <;>
    · intro m hm
      simp only [month_to_season]
      split_ifs <;> first | rfl | omega

/-- Witness for C10: the range clauses applied at months 2, 5, 8 and 0. -/
theorem C10_month_to_season_witness :
    month_to_season 2 = "Winter" ∧ month_to_season 5 = "Spring" ∧
    month_to_season 8 = "Summer" ∧ month_to_season 0 = "Autumn" :=
  ⟨C10_month_to_season_catch_all.1 2 (by decide),
   C10_month_to_season_catch_all.2.1 5 (by decide),
   C10_month_to_season_catch_all.2.2.1 8 (by decide),
   C10_month_to_season_catch_all.2.2.2.1 0 (by decide)⟩

theorem graviteReplace_idem (s : String) :
    graviteReplace (graviteReplace s) = graviteReplace s := by
  by_cases h1 : s = "Dommages matériels seulement"
  · subst h1; decide
  by_cases h2 : s = "Dommages matériels inférieurs au seuil de rapportage"
  · subst h2; decide
  by_cases h3 : s = "Léger"
  · subst h3; decide
  by_cases h4 : s = "Mortel ou grave"
  · subst h4; decide
  simp only [graviteReplace, if_neg h1, if_neg h2, if_neg h3, if_neg h4]

/-- C4 (amended): the cleaning of `load_and_clean_data` in
src/pages/3_accident_visualizations.py is idempotent (severity and
weekday-type mapped into fresh columns, month coercion a fixed point on its
own output, derived region column recomputed from an untouched source), as
are column-name cleaning and the severity `replace` of src/dashboard.py; the
in-place `Series.map` of the weather/surface code columns is the exception
recorded in the counterexample. -/
theorem C4_cleaning_idempotent_amended :
    (∀ r : VisRecord, clean3 (clean3 r) = clean3 r) ∧
    (∀ s : String, cleanColName (cleanColName s) = cleanColName s) ∧
    (∀ v : Val, pdReplaceGravite (pdReplaceGravite v) = pdReplaceGravite v) := by
  refine ⟨?_, cleanColName_idem, ?_⟩
  · intro r
    simp [clean3, toNumericCoerce_idem]
  · intro v
    cases v with
    | vStr s => simp only [pdReplaceGravite, graviteReplace_idem]
    | vInt n => rfl
    | vFloat num pow => rfl
    | vNull => rfl

/-- A raw record as loaded by src/pages/dashboard.py: coded weather, surface,
lighting and environment cells, raw severity label. -/
def rawRecC4 : DashRawRecord :=
  { AN := 2018, GRAVITE := .vStr "Mortel ou grave", CD_COND_METEO := .vInt 11,
    CD_ETAT_SURFC := .vInt 12, CD_ECLRM := .vInt 1, CD_ENVRN_ACCDN := .vInt 2,
    Lighting_Label := .vNull, Environment_Label := .vNull }

/-- C4 (counterexample): cleaning an already-cleaned record is not a no-op in
src/pages/dashboard.py — the in-place `Series.map` of the weather column
sends the already-mapped label "Clear" (not a key of the code dict) to NaN. -/
theorem C4_cleaning_counterexample :
    cleanDash (cleanDash rawRecC4) ≠ cleanDash rawRecC4 ∧
    (cleanDash rawRecC4).CD_COND_METEO = .vStr "Clear" ∧
    (cleanDash (cleanDash rawRecC4)).CD_COND_METEO = Val.vNull := by
  refine ⟨?_, rfl, rfl⟩
  decide

/-- C5 (counterexample): in src/pages/5_polar_grave_surface.py the month
coercion ends with `.astype(int)`, which raises on the missing marker
produced for an unparseable cell, so one bad cell aborts the whole load
instead of excluding the one record. -/
theorem C5_polar_coercion_counterexample :
    polarMonthLoad [Val.vStr "garbage", Val.vInt 5]
      = .error "Cannot convert non-finite values (NA or inf) to integer" := by
  rfl

/-- C5 (amended): `pd.to_numeric(errors='coerce')` itself never raises —
it is total, sending exactly the missing/unparseable cells to the missing
marker — and the `dropna` bucketing excludes exactly the records whose
month is missing; but both casts that follow the coercion can abort the
whole load: `astype("Int64")` errors exactly when some cell coerces to a
non-integral float (e.g. "3.5"), and `astype(int)` errors exactly when some
cell coerces to the missing marker (e.g. "garbage") while truncating a
non-integral float toward zero ("3.5" loads as 3). -/
theorem C5_numeric_coercion_amended :
    (∀ v : Val, toNumericCoerce v = Val.vNull ↔
      (v = Val.vNull ∨ ∃ s, v = Val.vStr s ∧ pyDecCore s.data = none)) ∧
    (∀ (rs : List VisRecord) (r : VisRecord), r ∈ rs →
      (r ∈ dropnaMonth rs ↔ r.MS_ACCDN ≠ Val.vNull)) ∧
    (∀ xs : List Val,
      ((∃ e, int64MonthLoad xs = Except.error e) ↔
        ∃ v ∈ xs, ∃ num pow, toNumericCoerce v = Val.vFloat num pow)) ∧
    (∀ xs : List Val,
      ((∃ e, polarMonthLoad xs = Except.error e) ↔
        ∃ v ∈ xs, toNumericCoerce v = Val.vNull)) ∧
    int64MonthLoad [Val.vStr "3.5"]
      = Except.error "cannot safely cast non-equivalent float64 to int64" ∧
    polarMonthLoad [Val.vStr "3.5", Val.vStr "garbage"]
      = Except.error "Cannot convert non-finite values (NA or inf) to integer" ∧
    polarMonthLoad [Val.vStr "3.5"] = Except.ok [3] := by
  refine ⟨?_, ?_, ?_, ?_, rfl, rfl, rfl⟩
  · intro v
    cases v with
    | vInt n => simp [toNumericCoerce]
    | vFloat num pow => simp [toNumericCoerce]
    | vNull => simp [toNumericCoerce]
    | vStr s =>
      rcases h : pyDecCore s.data with _ | ⟨neg, n, fp⟩
      · simp [toNumericCoerce, h]
      · cases fp with
        | nil => simp [toNumericCoerce, h]
        | cons c t => simp [toNumericCoerce, h]
  · intro rs r hr
    simp [dropnaMonth, List.mem_filter, hr]
  · intro xs
    simp only [int64MonthLoad]
    by_cases hc : (xs.map toNumericCoerce).all
        (fun v => match v with | Val.vFloat _ _ => false | _ => true) = true
    · rw [if_pos hc]
      constructor
      · rintro ⟨e, he⟩
        simp at he
      · rintro ⟨v, hv, num, pow, hq⟩
        have hall := List.all_eq_true.mp hc _
          (List.mem_map_of_mem toNumericCoerce hv)
        rw [hq] at hall
        simp at hall
    · rw [if_neg hc]
      constructor
      · intro _
        rw [List.all_eq_true] at hc
        push_neg at hc
        rcases hc with ⟨u, hu, hpu⟩
        rcases List.mem_map.mp hu with ⟨v, hv, rfl⟩
        refine ⟨v, hv, ?_⟩
        cases hcv : toNumericCoerce v with
        | vFloat num pow => exact ⟨num, pow, rfl⟩
        | vInt n => rw [hcv] at hpu; simp at hpu
        | vStr t => rw [hcv] at hpu; simp at hpu
        | vNull => rw [hcv] at hpu; simp at hpu
      · intro _
        exact ⟨_, rfl⟩
  · intro xs
    simp only [polarMonthLoad]
    by_cases hc : (xs.map toNumericCoerce).all
        (fun v => decide (v ≠ Val.vNull)) = true
    · rw [if_pos hc]
      constructor
      · rintro ⟨e, he⟩
        simp at he
      · rintro ⟨v, hv, hq⟩
        have hall := List.all_eq_true.mp hc _
          (List.mem_map_of_mem toNumericCoerce hv)
        rw [hq] at hall
        simp at hall
    · rw [if_neg hc]
      constructor
      · intro _
        rw [List.all_eq_true] at hc
        push_neg at hc
        rcases hc with ⟨u, hu, hpu⟩
        rcases List.mem_map.mp hu with ⟨v, hv, rfl⟩
        refine ⟨v, hv, ?_⟩
        simpa using hpu
      · intro _
        exact ⟨_, rfl⟩

/-- A cleaned record whose month cell is missing. -/
def visRecC5 : VisRecord :=
  { GRAVITE := .vStr "Léger", GRAVITE_EN := .vStr "Minor",
    JR_SEMN_ACCDN := .vStr "SEM", JR_SEMN_ACCDN_EN := .vStr "Weekday",
    MS_ACCDN := .vNull, REG_ADM := .vStr "Laval (13)",
    REG_ADM_CLEAN := .vStr "Laval" }

/-- Witness for C5: the dropna clause applied to a concrete one-record frame
whose month is missing. -/
theorem C5_numeric_coercion_amended_witness :
    visRecC5 ∈ dropnaMonth [visRecC5] ↔ visRecC5.MS_ACCDN ≠ Val.vNull :=
  C5_numeric_coercion_amended.2.1 [visRecC5] visRecC5 (by decide)

/-! ## Bar-chart aggregation (src/pages/bar_chart.py,
src/pages/utils/bar_chart_region.py) -/

/-- The columns of the frame passed to the bar-chart aggregators.  `GRAVITE`
and `time_unit` are `Val` cells because the aggregators overwrite them in
place (`time_unit` does not exist before the call; the missing column is
modelled as a NaN cell). -/
structure BCRecord where
  AN : Int
  MS_ACCDN : String
  JR_SEMN_ACCDN : String
  HR_ACCDN : String
  REG_ADM : String
  GRAVITE : Val
  time_unit : Val
deriving DecidableEq, Repr

/-- `GRAVITE_TRANSLATION` applied via `Series.map`: values that are not keys
of the dict (including missing cells) become NaN. -/
def GRAVITE_TRANSLATION : Val → Val
  | .vStr "Mortel ou grave" => .vStr "Fatal or Serious"
  | .vStr "Léger" => .vStr "Minor"
  | .vStr "Dommages matériels seulement" => .vStr "Property Damage Only"
  | .vStr "Dommages matériels inférieurs au seuil de rapportage" =>
      .vStr "Below Reporting Threshold"
  | _ => .vNull

/-- Python `str.zfill(2)`: left-pad with zeros to width 2 (month strings
here never carry a sign). -/
def zfill2 (s : String) : String :=
  if 2 ≤ s.length then s else String.mk (List.replicate (2 - s.length) '0') ++ s

/-- The `time_unit` column computation shared by both `get_aggregated_counts`
versions: year as string, year-month with a zero-filled month, the raw
weekday-type string, or the raw hour-range string; any other granularity
falls back to the year. -/
def timeUnitOf (granularity : String) (r : BCRecord) : Val :=
  if granularity = "year" then .vStr (toString r.AN)
  else if granularity = "month" then
    .vStr (toString r.AN ++ "-" ++ zfill2 r.MS_ACCDN)
  else if granularity = "daytype" then .vStr r.JR_SEMN_ACCDN
  else if granularity = "quarter_day" then .vStr r.HR_ACCDN
  else .vStr (toString r.AN)

/-- The (time_unit, type) key of a row, when both cells are present; rows
with a NaN key are dropped by `groupby`. -/
def keyedRows (df : List BCRecord) : List (String × String) :=
  df.filterMap (fun r =>
    match r.time_unit, r.GRAVITE with
    | .vStr tu, .vStr g => some (tu, g)
    | _, _ => none)

/-- `df.groupby(['time_unit', type_col]).size().reset_index(name='count')`:
one output row per present key pair with its multiplicity.  (pandas sorts the
group keys; key order is immaterial to every claim proved below, so
first-occurrence order is used.) -/
def groupCounts (rows : List (String × String)) : List (String × String × Nat) :=
  rows.dedup.map (fun k => (k.1, k.2, rows.count k))

namespace bar_chart

/-- `get_aggregated_counts` of src/pages/bar_chart.py.  The function starts
with `df = df.copy()`, so the caller's frame is untouched; the returned pair
is (the caller's frame after the call, the grouped counts). -/
def get_aggregated_counts (df : List BCRecord) (granularity : String) :
    List BCRecord × List (String × String × Nat) :=
  let df2 := df.map (fun r => { r with GRAVITE := GRAVITE_TRANSLATION r.GRAVITE })
  let df3 := df2.map (fun r => { r with time_unit := timeUnitOf granularity r })
  (df, groupCounts (keyedRows df3))

end bar_chart

namespace bar_chart_region

/-- `get_aggregated_counts` of src/pages/utils/bar_chart_region.py.  There is
no `df.copy()`: when a region is supplied, boolean-mask indexing creates a
new frame and the subsequent in-place writes hit that copy; when `region` is
`None`, the in-place writes hit the caller's frame itself.  The returned
pair is (the caller's frame after the call, the grouped counts). -/
def get_aggregated_counts (df : List BCRecord) (region : Option String)
    (granularity : String) : List BCRecord × List (String × String × Nat) :=
  match region with
  | some reg =>
    let sub := df.filter (fun r => r.REG_ADM = reg)
    let sub2 := sub.map (fun r => { r with GRAVITE := GRAVITE_TRANSLATION r.GRAVITE })
    let sub3 := sub2.map (fun r => { r with time_unit := timeUnitOf granularity r })
    (df, groupCounts (keyedRows sub3))
  | none =>
    let df2 := df.map (fun r => { r with GRAVITE := GRAVITE_TRANSLATION r.GRAVITE })
    let df3 := df2.map (fun r => { r with time_unit := timeUnitOf granularity r })
    (df3, groupCounts (keyedRows df3))

end bar_chart_region

/-- Per-row `value` computation in `draw` (identical in both files): percent
mode divides each count by the `transform('sum')` total of its time bucket;
any other mode keeps the raw counts. -/
def drawValues (grouped : List (String × String × Nat)) (mode : String) :
    List (String × String × ℚ) :=
  if mode = "percent" then
    grouped.map (fun g =>
      (g.1, g.2.1, 100 * (g.2.2 : ℚ) /
        (((grouped.filter (fun g2 => g2.1 = g.1)).map
          (fun g2 => (g2.2.2 : ℚ))).sum)))
  else
    grouped.map (fun g => (g.1, g.2.1, (g.2.2 : ℚ)))

/-- One plotly bar trace. -/
structure Trace where
  name : String
  xs : List String
  ys : List ℚ
deriving DecidableEq, Repr

/-- A figure reduced to the parts the claims are about: its title and its
bar traces. -/
structure Figure where
  title : String
  traces : List Trace
deriving DecidableEq, Repr

/-- The fixed severity enumeration `ordered_types` of `draw`. -/
def ordered_types : List String :=
  ["Fatal or Serious", "Minor", "Property Damage Only", "Below Reporting Threshold"]

namespace bar_chart

/-- `init_figure` of src/pages/bar_chart.py: an empty figure titled
"Accident Frequency in Quebec". -/
def init_figure : Figure :=
  { title := "Accident Frequency in Quebec", traces := [] }

/-- `draw` of src/pages/bar_chart.py: clears the figure's traces,
aggregates, computes values, and adds one bar per ordered type whose subset
is nonempty; `update_layout` sets axis and legend titles but leaves the
figure title unchanged. -/
def draw (fig : Figure) (data : List BCRecord) (mode : String)
    (granularity : String) : Figure :=
  let grouped := (get_aggregated_counts data granularity).2
  let values := drawValues grouped mode
  { title := fig.title
    traces := ordered_types.filterMap (fun t =>
      let subset := values.filter (fun v => v.2.1 = t)
      if subset.isEmpty then none
      else some { name := t, xs := subset.map (fun v => v.1),
                  ys := subset.map (fun v => v.2.2) }) }

end bar_chart

/-! ## Month reindexing (accident_severity_month_chart,
src/pages/3_accident_visualizations.py) -/

/-- The grouped frame of `accident_severity_month_chart`:
`groupby(['MS_ACCDN', 'GRAVITE_EN']).size().reset_index(name='Count')` over
the dropna-cleaned, period-filtered rows. -/
def monthSevGroup (rows : List (Int × String)) : List ((Int × String) × Nat) :=
  rows.dedup.map (fun k => (k, rows.count k))

/-- The per-severity month reindex of `accident_severity_month_chart`:
`df_grav.set_index('MS_ACCDN').reindex(range(1, 13), fill_value=0)['Count']`. -/
def monthReindexCounts (grouped : List ((Int × String) × Nat)) (grav : String) :
    List Nat :=
  let df_grav := grouped.filter (fun p => p.1.2 = grav)
  (List.range 12).map (fun i =>
    match df_grav.find? (fun p => p.1.1 = (i : Int) + 1) with
    | some p => p.2
    | none => 0)

/-! ## Aggregation lemmas and claims C1, C3, C7 -/

theorem groupCounts_pos {rows : List (String × String)}
    {g : String × String × Nat} (hg : g ∈ groupCounts rows) : 1 ≤ g.2.2 := by
  unfold groupCounts at hg
  rcases List.mem_map.mp hg with ⟨k, hk, rfl⟩
  have hkr : k ∈ rows := List.mem_dedup.mp hk
  simpa using List.count_pos_iff.mpr hkr

theorem drawValues_bucket_sum (grouped : List (String × String × Nat))
    (tu : String) :
    (((drawValues grouped "percent").filter (fun v => v.1 = tu)).map
      (fun v => v.2.2)).sum =
    100 * (((grouped.filter (fun g => g.1 = tu)).map
      (fun g => (g.2.2 : ℚ))).sum) /
    (((grouped.filter (fun g => g.1 = tu)).map (fun g => (g.2.2 : ℚ))).sum) := by
  have hmode : drawValues grouped "percent" = grouped.map (fun g =>
      (g.1, g.2.1, 100 * (g.2.2 : ℚ) /
        (((grouped.filter (fun g2 => g2.1 = g.1)).map
          (fun g2 => (g2.2.2 : ℚ))).sum))) := by
    simp [drawValues]
  rw [hmode]
  suffices h : ∀ l : List (String × String × Nat),
      (((l.map (fun g => (g.1, g.2.1, 100 * (g.2.2 : ℚ) /
          (((grouped.filter (fun g2 => g2.1 = g.1)).map
            (fun g2 => (g2.2.2 : ℚ))).sum)))).filter
        (fun v => v.1 = tu)).map (fun v => v.2.2)).sum =
      100 * (((l.filter (fun g => g.1 = tu)).map (fun g => (g.2.2 : ℚ))).sum) /
        (((grouped.filter (fun g => g.1 = tu)).map
          (fun g => (g.2.2 : ℚ))).sum) from h grouped
  intro l
  induction l with
  | nil => simp
  | cons a t ih =>
    by_cases ha : a.1 = tu
    · simp only [List.map_cons, List.filter_cons, ha, decide_True, if_true,
        List.sum_cons]
      rw [ih]
      ring
    · simp only [List.map_cons, List.filter_cons, ha, decide_False,
        Bool.false_eq_true, if_false]
      exact ih

/-- C3: in percent mode every present time bucket's per-severity values sum
to exactly 100 (the real-arithmetic idealization of the float computation)
and the bucket total divided by is strictly positive — the grouped frame
only ever holds populated buckets, so no division by zero arises; any other
mode returns the raw counts unchanged. -/
theorem C3_percent_mode_sums :
    (∀ (rows : List (String × String)) (tu : String),
      (∃ g ∈ groupCounts rows, g.1 = tu) →
      0 < (((groupCounts rows).filter (fun g => g.1 = tu)).map
          (fun g => (g.2.2 : ℚ))).sum ∧
      (((drawValues (groupCounts rows) "percent").filter
          (fun v => v.1 = tu)).map (fun v => v.2.2)).sum = 100) ∧
    (∀ (grouped : List (String × String × Nat)) (mode : String),
      mode ≠ "percent" →
      drawValues grouped mode
        = grouped.map (fun g => (g.1, g.2.1, (g.2.2 : ℚ)))) := by
  constructor
  · rintro rows tu ⟨g0, hg0, hg0tu⟩
    have hg0S : g0 ∈ (groupCounts rows).filter (fun g => g.1 = tu) :=
      List.mem_filter.mpr ⟨hg0, by simpa using hg0tu⟩
    have hnn : ∀ x ∈ ((groupCounts rows).filter (fun g => g.1 = tu)).map
        (fun g => (g.2.2 : ℚ)), (0 : ℚ) ≤ x := by
      intro x hx
      rcases List.mem_map.mp hx with ⟨g, _, rfl⟩
      exact Nat.cast_nonneg _
    have hone : (1 : ℚ) ≤ (g0.2.2 : ℚ) := by
      exact_mod_cast groupCounts_pos hg0
    have hle := List.single_le_sum hnn _
      (List.mem_map_of_mem (fun g => (g.2.2 : ℚ)) hg0S)
    have hpos : 0 < (((groupCounts rows).filter (fun g => g.1 = tu)).map
        (fun g => (g.2.2 : ℚ))).sum := by linarith
    refine ⟨hpos, ?_⟩
    rw [drawValues_bucket_sum, mul_div_assoc, div_self (ne_of_gt hpos), mul_one]
  · intro grouped mode hm
    simp only [drawValues, if_neg hm]

/-- The concrete grouped key rows used by the C3 witness: one 2018 bucket
holding two severities. -/
def rowsC3 : List (String × String) :=
  [("2018", "Fatal or Serious"), ("2018", "Minor")]

/-- Witness for C3: the percent clause applied to a concrete two-row bucket
and the count clause applied at mode "count". -/
theorem C3_percent_mode_sums_witness :
    (0 < (((groupCounts rowsC3).filter (fun g => g.1 = "2018")).map
        (fun g => (g.2.2 : ℚ))).sum ∧
      (((drawValues (groupCounts rowsC3) "percent").filter
        (fun v => v.1 = "2018")).map (fun v => v.2.2)).sum = 100) ∧
    drawValues (groupCounts rowsC3) "count"
      = (groupCounts rowsC3).map (fun g => (g.1, g.2.1, (g.2.2 : ℚ))) :=
  ⟨C3_percent_mode_sums.1 rowsC3 "2018"
      ⟨("2018", "Fatal or Serious", 1), by decide, rfl⟩,
    C3_percent_mode_sums.2 (groupCounts rowsC3) "count" (by decide)⟩

/-- C1 (amended): the month reindex of `accident_severity_month_chart`
always yields exactly 12 buckets (counts in ℕ, hence each ≥ 0), gives the
zero fill to every month no grouped row matches, and yields 12 zero buckets
on the empty per-severity input; the `draw` adapter of bar_chart.py, by
contrast, omits a severity with zero matching rows from its output instead
of zero-filling it (see the counterexample). -/
theorem C1_month_reindex_complete :
    (∀ (grouped : List ((Int × String) × Nat)) (grav : String),
      (monthReindexCounts grouped grav).length = 12) ∧
    (∀ grav : String, monthReindexCounts [] grav = List.replicate 12 0) ∧
    (∀ (grouped : List ((Int × String) × Nat)) (grav : String) (m : Nat),
      m < 12 → (∀ p ∈ grouped, ¬(p.1.1 = (m : Int) + 1 ∧ p.1.2 = grav)) →
      (monthReindexCounts grouped grav)[m]? = some 0) := by
  refine ⟨?_, ?_, ?_⟩
  · intro grouped grav
    have hmr : (monthReindexCounts grouped grav).length
        = ((List.range 12).map (fun (i : Nat) =>
          match (grouped.filter (fun p => p.1.2 = grav)).find?
              (fun p => p.1.1 = (i : Int) + 1) with
          | some p => p.2
          | none => 0)).length := rfl
    rw [hmr, List.length_map, List.length_range]
  · intro grav
    rfl
  · intro grouped grav m hm hnone
    have hfind : (grouped.filter (fun p => p.1.2 = grav)).find?
        (fun p => p.1.1 = (m : Int) + 1) = none := by
      rw [List.find?_eq_none]
      intro p hp hpm
      have hmem := List.mem_of_mem_filter hp
      have hgrav := List.of_mem_filter hp
      exact hnone p hmem ⟨by simpa using hpm, by simpa using hgrav⟩
    have hmr : monthReindexCounts grouped grav
        = (List.range 12).map (fun (i : Nat) =>
        match (grouped.filter (fun p => p.1.2 = grav)).find?
            (fun p => p.1.1 = (i : Int) + 1) with
        | some p => p.2
        | none => 0) := rfl
    rw [hmr]
    simp only [List.getElem?_map, List.getElem?_range hm, Option.map_some']
    rw [hfind]

/-- Witness for C1: the zero-fill clause applied to a concrete grouped frame
holding a single (March, Severe) row, read back at January. -/
theorem C1_month_reindex_complete_witness :
    (monthReindexCounts [((3, "Severe"), 4)] "Severe")[0]? = some 0 :=
  C1_month_reindex_complete.2.2 [((3, "Severe"), 4)] "Severe" 0 (by decide)
    (by decide)

/-- The single-record frame used by the C1 and C7 counterexamples. -/
def recC1 : BCRecord :=
  { AN := 2018, MS_ACCDN := "5", JR_SEMN_ACCDN := "SEM",
    HR_ACCDN := "08:00:00-11:59:00", REG_ADM := "Laval (13)",
    GRAVITE := .vStr "Mortel ou grave", time_unit := .vNull }

/-- C1 (counterexample): on a frame holding one fatal-or-serious record,
`draw` emits a single trace; "Minor" — a member of the fixed four-severity
enumeration — is omitted from the output instead of appearing zero-filled. -/
theorem C1_severity_omitted_counterexample :
    "Minor" ∈ ordered_types ∧
    ((bar_chart.draw bar_chart.init_figure [recC1] "count" "year").traces.map
      Trace.name) = ["Fatal or Serious"] ∧
    "Minor" ∉ ((bar_chart.draw bar_chart.init_figure [recC1] "count"
      "year").traces.map Trace.name) := by
  refine ⟨by decide, by decide, by decide⟩

/-- C7 (amended): the bar_chart.py aggregator copies its input, so the
caller's frame comes back unchanged for every input; the region variant also
leaves the caller's frame unchanged whenever a region is supplied, because
the in-place writes then hit the mask-indexed copy.  Called without a
region, the region variant mutates the caller's frame (see the
counterexample). -/
theorem C7_aggregators_frame :
    (∀ (df : List BCRecord) (granularity : String),
      (bar_chart.get_aggregated_counts df granularity).1 = df) ∧
    (∀ (df : List BCRecord) (reg granularity : String),
      (bar_chart_region.get_aggregated_counts df (some reg) granularity).1
        = df) :=
  ⟨fun _ _ => rfl, fun _ _ _ => rfl⟩

/-- C7 (counterexample): called without a region, the bar_chart_region
aggregator overwrites the caller's GRAVITE column in place (and materializes
a time_unit column), so the input table does not come back unchanged. -/
theorem C7_region_mutation_counterexample :
    (bar_chart_region.get_aggregated_counts [recC1] none "year").1 ≠ [recC1] ∧
    ((bar_chart_region.get_aggregated_counts [recC1] none "year").1.map
      (fun r => r.GRAVITE)) = [Val.vStr "Fatal or Serious"] ∧
    recC1.GRAVITE = Val.vStr "Mortel ou grave" := by
  refine ⟨by decide, by decide, rfl⟩

/-! ## Filter pipeline (update_graph in src/pages/dashboard.py,
show_dashboard in src/dashboard.py) — claim C6 -/

/-- The filterable columns of the cleaned dashboard frame. -/
structure DashRecord where
  AN : Int
  GRAVITE : Val
  CD_COND_METEO : Val
  CD_ETAT_SURFC : Val
  Environment_Label : Val
  CD_ASPCT_ROUTE : Val
  CD_ZON_TRAVX_ROUTR : Val
deriving DecidableEq, Repr

/-- The dimensions `update_graph` can filter on. -/
inductive Dim where
  | gravite | meteo | surface | env | road | const
deriving DecidableEq, Repr

/-- Column read by each dimension filter. -/
def dimVal : Dim → DashRecord → Val
  | .gravite, r => r.GRAVITE
  | .meteo, r => r.CD_COND_METEO
  | .surface, r => r.CD_ETAT_SURFC
  | .env, r => r.Environment_Label
  | .road, r => r.CD_ASPCT_ROUTE
  | .const, r => r.CD_ZON_TRAVX_ROUTR

/-- One filter of `update_graph`: the closed year interval from the range
slider, or a dimension equality whose optional selected value is `none` for
the falsy unsupplied selection that the code skips. -/
inductive DFilter where
  | yearRange (lo hi : Int)
  | eq (d : Dim) (sel : Option Val)
deriving DecidableEq, Repr

/-- Row predicate of one filter: `(df['AN'] >= lo) & (df['AN'] <= hi)` for
the year range; pandas `==` for an equality filter, where a NaN cell (and a
NaN selected value) compares unequal; vacuously true when unsupplied. -/
def filterPred : DFilter → DashRecord → Bool
  | .yearRange lo hi, r => decide (lo ≤ r.AN ∧ r.AN ≤ hi)
  | .eq _ none, _ => true
  | .eq d (some v), r => decide (dimVal d r = v ∧ v ≠ Val.vNull)

/-- Application of one filter in `update_graph`: an unsupplied equality
filter is skipped (`if gravite: ...`), a supplied one masks the rows. -/
def applyFilter (f : DFilter) (dff : List DashRecord) : List DashRecord :=
  match f with
  | .eq _ none => dff
  | f => dff.filter (filterPred f)

/-- The sequential filter pipeline of `update_graph`: filters applied left
to right. -/
def applyPipeline (fs : List DFilter) (df : List DashRecord) :
    List DashRecord :=
  fs.foldl (fun dff f => applyFilter f dff) df

theorem applyFilter_eq_filter (f : DFilter) (l : List DashRecord) :
    applyFilter f l = l.filter (filterPred f) := by
  cases f with
  | yearRange lo hi => rfl
  | eq d sel =>
    cases sel with
    | none =>
      show l = l.filter (fun _ => true)
      rw [List.filter_true]
    | some v => rfl

theorem applyPipeline_eq_filter_all (fs : List DFilter) (l : List DashRecord) :
    applyPipeline fs l = l.filter (fun r => fs.all (fun f => filterPred f r)) := by
  induction fs generalizing l with
  | nil => simp [applyPipeline]
  | cons f fs ih =>
    show applyPipeline fs (applyFilter f l) = _
    rw [ih, applyFilter_eq_filter, List.filter_filter]
    apply List.filter_congr
    intro r _
    rw [List.all_cons, Bool.and_comm]

/-- C6: every single filter application is commutative and idempotent, an
unsupplied filter is a pass-through, and the whole pipeline is insensitive
to the order in which the supplied filters are applied. -/
theorem C6_filter_pipeline :
    (∀ (f g : DFilter) (l : List DashRecord),
      applyFilter f (applyFilter g l) = applyFilter g (applyFilter f l)) ∧
    (∀ (f : DFilter) (l : List DashRecord),
      applyFilter f (applyFilter f l) = applyFilter f l) ∧
    (∀ (d : Dim) (l : List DashRecord), applyFilter (.eq d none) l = l) ∧
    (∀ (fs gs : List DFilter) (l : List DashRecord), fs.Perm gs →
      applyPipeline fs l = applyPipeline gs l) := by
  refine ⟨?_, ?_, fun d l => rfl, ?_⟩
  · intro f g l
    rw [applyFilter_eq_filter, applyFilter_eq_filter, applyFilter_eq_filter,
      applyFilter_eq_filter, List.filter_filter, List.filter_filter]
    apply List.filter_congr
    intro r _
    rw [Bool.and_comm]
  · intro f l
    rw [applyFilter_eq_filter, applyFilter_eq_filter, List.filter_filter]
    apply List.filter_congr
    intro r _
    rw [Bool.and_self]
  · intro fs gs l hperm
    rw [applyPipeline_eq_filter_all, applyPipeline_eq_filter_all]
    apply List.filter_congr
    intro r _
    have hiff : fs.all (fun f => filterPred f r) = true
        ↔ gs.all (fun f => filterPred f r) = true := by
      rw [List.all_eq_true, List.all_eq_true]
      exact ⟨fun H x hx => H x (hperm.mem_iff.mpr hx),
        fun H x hx => H x (hperm.mem_iff.mp hx)⟩
    cases hfs : fs.all (fun f => filterPred f r) with
    | true => exact (hiff.mp hfs).symm
    | false =>
      cases hgs : gs.all (fun f => filterPred f r) with
      | true => exact absurd (hiff.mpr hgs) (by simp [hfs])
      | false => rfl

/-- A concrete cleaned dashboard record for the C6 witness. -/
def dashRecC6 : DashRecord :=
  { AN := 2018, GRAVITE := .vStr "Grave", CD_COND_METEO := .vStr "Clear",
    CD_ETAT_SURFC := .vStr "Dry", Environment_Label := .vStr "Rural",
    CD_ASPCT_ROUTE := .vNull, CD_ZON_TRAVX_ROUTR := .vNull }

/-- Witness for C6: the order-insensitivity clause applied to the concrete
pipeline [year range 2018-2019, severity = "Grave"] and its swap on a
one-record frame. -/
theorem C6_filter_pipeline_witness :
    applyPipeline [.yearRange 2018 2019, .eq .gravite (some (.vStr "Grave"))]
        [dashRecC6]
      = applyPipeline [.eq .gravite (some (.vStr "Grave")),
        .yearRange 2018 2019] [dashRecC6] :=
  C6_filter_pipeline.2.2.2 _ _ _ (List.Perm.swap _ _ _)

/-! ## Sankey construction (create_sankey_chart, src/pages/4_road_severity.py)
— claims C8 and C9 -/

/-- The columns of the frame passed to `create_sankey_chart`; `none` models a
NaN cell (the code drops them with `dropna`). -/
structure SankeyRecord where
  CD_CATEG_ROUTE : Option String
  CD_CONFG_ROUTE : Option String
  GRAVITE_EN : Option String
deriving DecidableEq, Repr

/-- `severity_color_map` of `create_sankey_chart`. -/
def severity_color_map : List (String × String) :=
  [("Severe", "darkred"), ("Minor", "lightgreen"),
   ("Material Damage", "steelblue"), ("Low Damage", "lightgrey"),
   ("Other", "gray")]

/-- `severity_color_map.get(label, "gray")`. -/
def severityColor (label : String) : String :=
  (severity_color_map.lookup label).getD "gray"

/-- `severity_order` of `create_sankey_chart`. -/
def severity_order : List String :=
  ["Severe", "Minor", "Material Damage", "Low Damage"]

/-- Insertion step of an ascending string sort. -/
def insertAsc (a : String) : List String → List String
  | [] => [a]
  | b :: t => if a ≤ b then a :: b :: t else b :: insertAsc a t

/-- `sorted(series.dropna().unique().tolist())`: distinct values in
ascending code-point order (insertion sort; Python `sorted` is likewise a
comparison sort on the same order). -/
def uniqueSorted (xs : List String) : List String :=
  xs.dedup.foldr insertAsc []

/-- One Sankey link: source and destination node labels, flow value, link
color (the parallel `source`/`target`/`value`/`links_colors` arrays of the
code, kept with their labels). -/
structure SLink where
  src : String
  tgt : String
  value : Nat
  color : String
deriving DecidableEq, Repr

/-- The link construction of `create_sankey_chart`: flows are the grouped
(road column, severity) counts; a link is emitted when both labels are node
labels, and its color is `severity_color_map.get(grav_label, "gray")` — the
destination severity's color, never the source's. -/
def create_sankey_links (df : List SankeyRecord) (chart_type : String) :
    List SLink :=
  let selCol : SankeyRecord → Option String :=
    if chart_type = "Road Category" then (fun r => r.CD_CATEG_ROUTE)
    else (fun r => r.CD_CONFG_ROUTE)
  let cats := uniqueSorted (df.filterMap selCol)
  let sevs := uniqueSorted (df.filterMap (fun r => r.GRAVITE_EN))
  let present := severity_order.filter (fun s => s ∈ sevs)
  let nodes_labels := cats ++ present
  let flows := groupCounts (df.filterMap (fun r =>
    match selCol r, r.GRAVITE_EN with
    | some c, some g => some (c, g)
    | _, _ => none))
  flows.filterMap (fun f =>
    if f.1 ∈ nodes_labels ∧ f.2.1 ∈ nodes_labels then
      some { src := f.1, tgt := f.2.1, value := f.2.2,
             color := severityColor f.2.1 }
    else none)

/-- A Sankey figure reduced to the parts the claims are about. -/
structure SankeyFig where
  title : String
  links : List SLink
deriving DecidableEq, Repr

/-- `create_sankey_chart` of src/pages/4_road_severity.py: empty input gives
a placeholder, missing categories/severities and linkless flows give their
placeholders, otherwise the full flow diagram. -/
def create_sankey_chart (df : List SankeyRecord) (chart_type : String) :
    SankeyFig :=
  if df.isEmpty then
    { title := "No data to display for this chart.", links := [] }
  else
    let selCol : SankeyRecord → Option String :=
      if chart_type = "Road Category" then (fun r => r.CD_CATEG_ROUTE)
      else (fun r => r.CD_CONFG_ROUTE)
    let cats := uniqueSorted (df.filterMap selCol)
    let sevs := uniqueSorted (df.filterMap (fun r => r.GRAVITE_EN))
    let present := severity_order.filter (fun s => s ∈ sevs)
    if cats.isEmpty ∨ present.isEmpty then
      { title :=
          if chart_type = "Road Category" then
            "Missing data for Road Category chart."
          else "Missing data for Road Configuration chart.",
        links := [] }
    else
      let links := create_sankey_links df chart_type
      if links.isEmpty then
        { title := "No valid links generated for " ++ chart_type
            ++ " Sankey diagram.", links := [] }
      else
        { title := "Accident Severity: " ++ chart_type ++ " → Severity",
          links := links }

theorem if_some_eq {c : Prop} [Decidable c] {a lk : SLink}
    (h : (if c then some a else none) = some lk) : lk = a := by
  split at h
  · exact (Option.some.inj h).symm
  · cases h

theorem create_sankey_links_color {df : List SankeyRecord} {ct : String}
    {lk : SLink} (hl : lk ∈ create_sankey_links df ct) :
    lk.color = severityColor lk.tgt := by
  simp only [create_sankey_links] at hl
  rcases List.mem_filterMap.mp hl with ⟨f, _, hf⟩
  have hlk := if_some_eq hf
  subst hlk
  rfl

/-- C9: every emitted Sankey link is colored by its destination severity
label through the fixed palette with fallback "gray" — two links sharing a
destination share a color regardless of source, and a destination outside
the four severity labels gets "gray". -/
theorem C9_sankey_link_colors :
    (∀ (df : List SankeyRecord) (ct : String) (lk : SLink),
      lk ∈ create_sankey_links df ct → lk.color = severityColor lk.tgt) ∧
    (∀ (df : List SankeyRecord) (ct : String) (l1 l2 : SLink),
      l1 ∈ create_sankey_links df ct → l2 ∈ create_sankey_links df ct →
      l1.tgt = l2.tgt → l1.color = l2.color) ∧
    (∀ g : String, g ∉ severity_order → severityColor g = "gray") := by
  refine ⟨fun df ct lk hl => create_sankey_links_color hl, ?_, ?_⟩
  · intro df ct l1 l2 h1 h2 htgt
    rw [create_sankey_links_color h1, create_sankey_links_color h2, htgt]
  · intro g hg
    simp only [severity_order, List.mem_cons, List.not_mem_nil, or_false,
      not_or] at hg
    obtain ⟨h1, h2, h3, h4⟩ := hg
    by_cases h5 : g = "Other"
    · subst h5
      rfl
    · have e1 : (g == "Severe") = false := beq_eq_false_iff_ne.mpr h1
      have e2 : (g == "Minor") = false := beq_eq_false_iff_ne.mpr h2
      have e3 : (g == "Material Damage") = false := beq_eq_false_iff_ne.mpr h3
      have e4 : (g == "Low Damage") = false := beq_eq_false_iff_ne.mpr h4
      have e5 : (g == "Other") = false := beq_eq_false_iff_ne.mpr h5
      simp [severityColor, severity_color_map, List.lookup, e1, e2, e3, e4, e5]

/-- The one-record frame used by the C9 witness: one accident on road
category "1" with severity Severe. -/
def sankeyDf : List SankeyRecord :=
  [{ CD_CATEG_ROUTE := some "1", CD_CONFG_ROUTE := some "2",
     GRAVITE_EN := some "Severe" }]

/-- The concrete link the witness frame generates. -/
def slinkC9 : SLink :=
  { src := "1", tgt := "Severe", value := 1, color := "darkred" }

/-- Witness for C9: the color clause applied to the concrete link this frame
generates, and the fallback clause applied at the label "5" (not a severity). -/
theorem C9_sankey_link_colors_witness :
    slinkC9.color = severityColor slinkC9.tgt ∧ severityColor "5" = "gray" :=
  ⟨C9_sankey_link_colors.1 sankeyDf "Road Category" slinkC9 (by decide),
   C9_sankey_link_colors.2.2 "5" (by decide)⟩

/-! ## Empty-input behavior of the chart adapters — claim C8 -/

/-- The columns of the frame used by `accidents_by_user_type_chart`
(src/pages/3_accident_visualizations.py): the five involved-party indicator
cells and the hour-range string (`none` models a NaN cell). -/
structure UTRecord where
  IND_AUTO_CAMION_LEGER : Val
  IND_VEH_LOURD : Val
  IND_MOTO_CYCLO : Val
  IND_VELO : Val
  IND_PIETON : Val
  HR_ACCDN : Option String
deriving DecidableEq, Repr

/-- `Series.replace({'O': 1, 'N': 0})` on one indicator cell. -/
def replaceON : Val → Val
  | .vStr "O" => .vInt 1
  | .vStr "N" => .vInt 0
  | v => v

/-- Column sum over the numeric cells (after the replace, the indicator
cells of the dataset are 0/1 integers). -/
def sumInts (xs : List Val) : Int :=
  xs.foldl (fun a v => match v with | .vInt n => a + n | _ => a) 0

/-- Descending insertion step for `sort_values(ascending=False)`. -/
def insertDesc (p : String × Int) :
    List (String × Int) → List (String × Int)
  | [] => [p]
  | q :: t => if q.2 ≤ p.2 then p :: q :: t else q :: insertDesc p t

/-- `accidents_by_user_type_chart` of
src/pages/3_accident_visualizations.py: indicators converted to 0/1, rows
classified Day/Night from the hour range, the selected period filtered; an
empty subset yields the placeholder figure, otherwise one bar of per-type
counts sorted descending. -/
def accidents_by_user_type_chart (df : List UTRecord) (period_type : String) :
    Figure :=
  let df_copy := df.map (fun r =>
    { r with
      IND_AUTO_CAMION_LEGER := replaceON r.IND_AUTO_CAMION_LEGER
      IND_VEH_LOURD := replaceON r.IND_VEH_LOURD
      IND_MOTO_CYCLO := replaceON r.IND_MOTO_CYCLO
      IND_VELO := replaceON r.IND_VELO
      IND_PIETON := replaceON r.IND_PIETON })
  let subset := df_copy.filter
    (fun r => classify_period_hr r.HR_ACCDN = period_type)
  if subset.isEmpty then
    { title := "No data available for User Type in " ++ period_type
        ++ " period",
      traces := [] }
  else
    let counts :=
      [("Light Vehicles", sumInts (subset.map (fun r => r.IND_AUTO_CAMION_LEGER))),
       ("Heavy Vehicles", sumInts (subset.map (fun r => r.IND_VEH_LOURD))),
       ("Motorcycles", sumInts (subset.map (fun r => r.IND_MOTO_CYCLO))),
       ("Bicycles", sumInts (subset.map (fun r => r.IND_VELO))),
       ("Pedestrians", sumInts (subset.map (fun r => r.IND_PIETON)))]
    let sorted := counts.foldr insertDesc []
    { title := "Number of Accidents by User Type - " ++ period_type,
      traces := [{ name := period_type, xs := sorted.map (fun p => p.1),
                   ys := sorted.map (fun p => (p.2 : ℚ)) }] }

/-- `month_labels` of `accident_severity_month_chart`. -/
def month_labels : List String :=
  ["Jan", "Feb", "Mar", "Apr", "May", "Jun",
   "Jul", "Aug", "Sep", "Oct", "Nov", "Dec"]

/-- The columns of the frame used by `accident_severity_month_chart`. -/
structure MSRecord where
  GRAVITE_EN : Val
  MS_ACCDN : Val
  HR_ACCDN : Option String
deriving DecidableEq, Repr

/-- `accident_severity_month_chart` of
src/pages/3_accident_visualizations.py: month re-coerced, rows classified
Day/Night, NaN severity/month rows dropped, the selected period filtered and
grouped by (month, severity); an empty grouped frame yields the placeholder
figure, otherwise one stacked bar per severity with the 12-month reindexed
counts.  (The defensive re-coercion of line 161 repeats line 37 of
`load_and_clean_data`; on the already-cast data the page passes, month cells
are integers or NA, on which it is the identity — its abort path on a
non-integral float is `int64MonthLoad`.) -/
def accident_severity_month_chart (df : List MSRecord) (period_type : String) :
    Figure :=
  let df_clean := df.map (fun r => { r with MS_ACCDN := toNumericCoerce r.MS_ACCDN })
  let rows := df_clean.filterMap (fun r =>
    match r.GRAVITE_EN, r.MS_ACCDN with
    | .vStr g, .vInt m =>
      if classify_period_severity_hr r.HR_ACCDN = period_type then
        some (m, g)
      else none
    | _, _ => none)
  let grouped := monthSevGroup rows
  if grouped.isEmpty then
    { title := "No data available for Monthly Severity in " ++ period_type
        ++ " period",
      traces := [] }
  else
    { title := "Monthly Accident Severity (" ++ period_type ++ "time)",
      traces := severity_order.map (fun grav =>
        { name := grav, xs := month_labels,
          ys := (monthReindexCounts grouped grav).map (fun n => (n : ℚ)) }) }

/-- C8 (amended): the page chart adapters with explicit empty checks return
a placeholder figure whose title explains the missing data and raise nothing
(all total functions of their input); the bar-chart `draw` adapters, by
contrast, return a figure with no traces whose title is whatever the passed
figure already carried (see the counterexample). -/
theorem C8_empty_input_placeholders :
    (∀ ct : String, create_sankey_chart [] ct
      = { title := "No data to display for this chart.", links := [] }) ∧
    (∀ p : String, accidents_by_user_type_chart [] p
      = { title := "No data available for User Type in " ++ p ++ " period",
          traces := [] }) ∧
    (∀ p : String, accident_severity_month_chart [] p
      = { title := "No data available for Monthly Severity in " ++ p
            ++ " period",
          traces := [] }) :=
  ⟨fun _ => rfl, fun _ => rfl, fun _ => rfl⟩

/-- C8 (counterexample): `draw` of bar_chart.py on an empty frame returns a
figure with no traces whose title equals the init title — the same title a
populated frame gets — so the empty result carries no explanatory
placeholder title. -/
theorem C8_draw_no_placeholder_counterexample :
    bar_chart.draw bar_chart.init_figure [] "count" "year"
      = { title := "Accident Frequency in Quebec", traces := [] } ∧
    (bar_chart.draw bar_chart.init_figure [] "count" "year").title
      = (bar_chart.draw bar_chart.init_figure [recC1] "count" "year").title :=
  ⟨rfl, rfl⟩
